import Mathlib

/-!
Shallow embedding of udpt's administrative web server (`src/webserver.rs`).

The file models:
  * the `binascii` hex codec as used by the handlers (`bin2hex` into a
    40-byte buffer, `hex2bin` into a zero-initialized 20-byte buffer);
  * Rust's `u32::from_str` as used for the `offset` and `limit` query
    parameters;
  * the access-token table built in `UdptState::new` and the middleware
    lookup performed by `UdptMiddleware::start` / `UdptRequestState::get_user`;
  * the three JSON handlers `view_torrent_list`, `view_torrent_stats` and
    `torrent_action`.  The tracking engine (`tracker::TorrentTracker`) is
    external to the repository; following the spec it is modelled as an
    ordered association list (its iteration order) plus oracles for the
    success of `add_torrent` / `remove_torrent`.  Mutating handlers return,
    besides the HTTP response, the trace of engine calls they perform, so
    that "no mutation happened" and "the flag was set" are statable.
  * serde's JSON serialization of the `APIResponse` enum.  The enum derives
    `Serialize` with `rename_all = "snake_case"` and no `tag` attribute, so
    serde uses its default externally-tagged representation: a one-field
    object whose key is the snake-cased variant name.
-/

namespace Udpt

/-! ## Hex codec (`binascii::bin2hex` / `binascii::hex2bin`) -/

/-- Value of one hex digit, accepting both cases, as in `binascii::hex2bin`. -/
def hexVal (c : Char) : Option Nat :=
  if ('0' ≤ c ∧ c ≤ '9') then some (c.toNat - 48)
  else if ('a' ≤ c ∧ c ≤ 'f') then some (c.toNat - 87)
  else if ('A' ≤ c ∧ c ≤ 'F') then some (c.toNat - 55)
  else none

/-- Lowercase hex digit for a value below 16, as emitted by `binascii::bin2hex`. -/
def hexDigitLower (n : Nat) : Char :=
  if n < 10 then Char.ofNat (48 + n) else Char.ofNat (87 + n)

/-- `binascii::bin2hex`: each input byte becomes two lowercase hex digits.
In `infohash_as_str` the output buffer is 40 bytes and the input 20 bytes,
so the buffer is filled exactly. -/
def bin2hex (input : List Nat) : List Char :=
  (input.map (fun b => [hexDigitLower (b / 16), hexDigitLower (b % 16)])).flatten

/-- Decode consecutive pairs of hex digits; fails on a non-hex character or
on a dangling odd character. -/
def decodePairs : List Char → Option (List Nat)
  | [] => some []
  | [_] => none
  | hi :: lo :: rest =>
    match hexVal hi, hexVal lo, decodePairs rest with
    | some h, some l, some r => some ((h * 16 + l) :: r)
    | _, _, _ => none

/-- `binascii::hex2bin` into a zero-initialized buffer of `outLen` bytes:
fails when the input length is odd, when the buffer is too small, or on a
non-hex character; on success the decoded bytes occupy the front of the
buffer and the remainder keeps its zeros (the handlers then use the whole
20-byte buffer as the info-hash). -/
def hex2bin (input : List Char) (outLen : Nat) : Option (List Nat) :=
  if input.length % 2 ≠ 0 then none
  else if outLen < input.length / 2 then none
  else (decodePairs input).map (fun bs => bs ++ List.replicate (outLen - bs.length) 0)

/-! ## `u32::from_str` and query-parameter parsing -/

/-- Decimal digit value. -/
def digitVal (c : Char) : Option Nat :=
  if ('0' ≤ c ∧ c ≤ '9') then some (c.toNat - 48) else none

/-- Accumulate decimal digits left to right; fails on a non-digit. -/
def parseDigits (cs : List Char) : Option Nat :=
  cs.foldl (fun acc c =>
    match acc, digitVal c with
    | some n, some d => some (n * 10 + d)
    | _, _ => none) (some 0)

/-- Rust's `u32::from_str`: an optional leading plus sign, then at least one
decimal digit, and the value must fit in 32 bits (overflow is a parse
error). -/
def u32_from_str (s : String) : Option Nat :=
  let cs :=
    match s.data with
    | '+' :: rest => rest
    | cs => cs
  if cs.isEmpty then none
  else
    match parseDigits cs with
    | none => none
    | some n => if n < 2 ^ 32 then some n else none

/-- The handlers' treatment of an optional numeric query parameter
(`offset`, `limit`): absent or unparsable yields 0
(`webserver.rs` lines 171-189). -/
def parseParamU32 (p : Option String) : Nat :=
  match p with
  | none => 0
  | some v => (u32_from_str v).getD 0

/-- The limit normalization of `view_torrent_list` (lines 191-195):
clamp above 4096, replace 0 by the default page size 1000. -/
def effectiveLimit (limitParam : Option String) : Nat :=
  let req_limit := parseParamU32 limitParam
  if req_limit > 4096 then 4096
  else if req_limit = 0 then 1000
  else req_limit

/-! ## Application state and authentication -/

/-- A tracked entry as the handlers observe it: flag state and the triple
returned by `get_stats` (`seeders, completed, leechers`). -/
structure TorrentEntry where
  is_flagged : Bool
  seeders : Nat
  completed : Nat
  leechers : Nat
deriving DecidableEq

/-- The external tracking engine, per the spec's collaborator interface:
`db` is its iteration in stored order (info-hashes are 20-byte values);
`addOk` / `removeOk` record whether `add_torrent` / `remove_torrent`
report success. -/
structure Tracker where
  db : List (List Nat × TorrentEntry)
  addOk : List Nat → Bool
  removeOk : List Nat → Bool → Bool

/-- `UdptState`: the access-token table (token ↦ username) and the tracker
handle. -/
structure UdptState where
  access_tokens : List (String × String)
  tracker : Tracker

/-- `UdptState::new`: the table holds the single token `h311o` ↦ `naim`. -/
def UdptState.new (tracker : Tracker) : UdptState :=
  { access_tokens := [("h311o", "naim")], tracker := tracker }

/-- Token lookup in the table, as `access_tokens.get(token)`. -/
def lookupToken (tokens : List (String × String)) (t : String) : Option String :=
  (tokens.find? (fun p => p.1 = t)).map (fun p => p.2)

/-- `UdptMiddleware::start` + `UdptRequestState::get_user`: the request's
current user is the principal bound to the `token` query parameter, if any. -/
def get_user (tokens : List (String × String)) (tokenParam : Option String) : Option String :=
  match tokenParam with
  | none => none
  | some t => lookupToken tokens t

/-- The query parameters the handlers read. -/
structure Query where
  token : Option String := none
  offset : Option String := none
  limit : Option String := none
  action : Option String := none

/-! ## Responses -/

/-- The serializable response shapes (`http_responses`). -/
structure TorrentInfo where
  is_flagged : Bool
  leecher_count : Nat
  seeder_count : Nat
  completed : Nat
deriving DecidableEq

structure TorrentList where
  offset : Nat
  length : Nat
  total : Nat
  torrents : List (List Nat)
deriving DecidableEq

/-- `APIResponse`: the tagged union of the three response variants. -/
inductive APIResponse where
  | Error (msg : String)
  | TorrentList (l : TorrentList)
  | TorrentInfo (i : TorrentInfo)
deriving DecidableEq

/-- A response body: a JSON-serialized `APIResponse`, literal text, or the
empty body used by the mutating actions. -/
inductive Body where
  | json (r : APIResponse)
  | text (s : String)
  | empty
deriving DecidableEq

/-- An HTTP response: numeric status code and body. -/
structure HttpResponse where
  status : Nat
  body : Body
deriving DecidableEq

/-! ## Handlers -/

/-- `view_torrent_list` (lines 164-214).  `total` and `length` go through
`as u32` casts; `offset` and the limit are already below `2 ^ 32`. -/
def view_torrent_list (s : UdptState) (q : Query) : HttpResponse :=
  if (get_user s.access_tokens q.token).isNone then
    { status := 200, body := Body.json (APIResponse.Error "access_denied") }
  else
    let req_offset := parseParamU32 q.offset
    let req_limit := effectiveLimit q.limit
    let app_db := s.tracker.db
    let total := app_db.length % 2 ^ 32
    let torrents := ((app_db.drop req_offset).take req_limit).map Prod.fst
    { status := 200,
      body := Body.json (APIResponse.TorrentList
        { total := total,
          length := torrents.length % 2 ^ 32,
          offset := req_offset,
          torrents := torrents }) }

/-- `view_torrent_stats` (lines 216-261).  `path` is the matched
`info_hash` path segment; extraction of a matched string segment does not
fail, so the `internal_error` branch guarding `Path::extract` has no
counterpart here. -/
def view_torrent_stats (s : UdptState) (q : Query) (path : String) : HttpResponse :=
  if (get_user s.access_tokens q.token).isNone then
    { status := 401, body := Body.json (APIResponse.Error "access_denied") }
  else
    match hex2bin path.data 20 with
    | none => { status := 400, body := Body.json (APIResponse.Error "invalid_info_hash") }
    | some info_hash =>
      match (s.tracker.db.find? (fun p => p.1 = info_hash)).map (fun p => p.2) with
      | none => { status := 404, body := Body.json (APIResponse.Error "not_found") }
      | some entry =>
        { status := 200,
          body := Body.json (APIResponse.TorrentInfo
            { is_flagged := entry.is_flagged,
              seeder_count := entry.seeders,
              leecher_count := entry.leechers,
              completed := entry.completed }) }

/-- A call made against the tracking engine. -/
inductive EngineCall where
  | set_torrent_flag (h : List Nat) (b : Bool)
  | add_torrent (h : List Nat)
  | remove_torrent (h : List Nat) (cascade : Bool)
deriving DecidableEq

/-- `torrent_action` (lines 263-327): the HTTP response together with the
trace of engine calls performed.  The `action` parameter is checked before
the path is decoded; `add` and `remove` inspect the engine result, `flag`
and `unflag` do not. -/
def torrent_action (s : UdptState) (q : Query) (path : String) :
    HttpResponse × List EngineCall :=
  if (get_user s.access_tokens q.token).isNone then
    ({ status := 401, body := Body.json (APIResponse.Error "access_denied") }, [])
  else
    match q.action with
    | none => ({ status := 400, body := Body.json (APIResponse.Error "action_required") }, [])
    | some action =>
      match hex2bin path.data 20 with
      | none => ({ status := 400, body := Body.json (APIResponse.Error "invalid_info_hash") }, [])
      | some info_hash =>
        if action = "flag" then
          ({ status := 200, body := Body.empty }, [EngineCall.set_torrent_flag info_hash true])
        else if action = "unflag" then
          ({ status := 200, body := Body.empty }, [EngineCall.set_torrent_flag info_hash false])
        else if action = "add" then
          let success := s.tracker.addOk info_hash
          ({ status := if success then 200 else 500, body := Body.empty },
            [EngineCall.add_torrent info_hash])
        else if action = "remove" then
          let success := s.tracker.removeOk info_hash true
          ({ status := if success then 200 else 500, body := Body.empty },
            [EngineCall.remove_torrent info_hash true])
        else
          ({ status := 400, body := Body.json (APIResponse.Error "invalid_action") }, [])

/-! ## JSON serialization of `APIResponse`

`APIResponse` derives `Serialize` with `#[serde(rename_all = "snake_case")]`
and no `tag` attribute, so serde_json renders its default externally-tagged
enum representation: a one-entry object mapping the snake-cased variant name
to the variant's payload.  Struct fields serialize in declaration order;
`TorrentList.torrents` goes through the custom `infohash_as_str` serializer,
which renders each 20-byte hash as the 40-character lowercase hex string
produced by `bin2hex` into a 40-byte buffer. -/

/-- A JSON value (what serde_json produces for these types). -/
inductive Json where
  | str (s : String)
  | num (n : Nat)
  | bool (b : Bool)
  | arr (xs : List Json)
  | obj (fields : List (String × Json))

/-- Serialization of `http_responses::TorrentInfo` (fields in declaration
order). -/
def serializeTorrentInfo (i : TorrentInfo) : Json :=
  Json.obj
    [("is_flagged", Json.bool i.is_flagged),
     ("leecher_count", Json.num i.leecher_count),
     ("seeder_count", Json.num i.seeder_count),
     ("completed", Json.num i.completed)]

/-- Serialization of `http_responses::TorrentList`; `torrents` uses
`infohash_as_str`. -/
def serializeTorrentList (l : TorrentList) : Json :=
  Json.obj
    [("offset", Json.num l.offset),
     ("length", Json.num l.length),
     ("total", Json.num l.total),
     ("torrents", Json.arr (l.torrents.map (fun h => Json.str (String.mk (bin2hex h)))))]

/-- Serialization of `APIResponse`: serde's externally-tagged default with
`rename_all = "snake_case"`. -/
def serializeAPIResponse (r : APIResponse) : Json :=
  match r with
  | APIResponse.Error msg => Json.obj [("error", Json.str msg)]
  | APIResponse.TorrentList l => Json.obj [("torrent_list", serializeTorrentList l)]
  | APIResponse.TorrentInfo i => Json.obj [("torrent_info", serializeTorrentInfo i)]

/-- Whether a JSON value is an object containing the given key. -/
def hasKey (j : Json) (k : String) : Bool :=
  match j with
  | Json.obj fields => fields.any (fun f => f.1 = k)
  | _ => false

/-- The route pattern of the single-entity scope,
`/t/{info_hash:[\dA-Fa-f]{40,40}}`: exactly 40 characters, each a decimal
digit or a hex letter of either case. -/
def route_pattern_matches (s : String) : Bool :=
  s.data.length = 40 &&
    s.data.all (fun c =>
      (('0' ≤ c && c ≤ '9') || ('A' ≤ c && c ≤ 'F') || ('a' ≤ c && c ≤ 'f')))

/-! ## Helper lemmas on the hex codec -/

theorem hexVal_hexDigitLower (n : Nat) (h : n < 16) : hexVal (hexDigitLower n) = some n := by
  interval_cases n <;> decide

theorem bin2hex_cons (b : Nat) (bs : List Nat) :
    bin2hex (b :: bs) = hexDigitLower (b / 16) :: hexDigitLower (b % 16) :: bin2hex bs := by
  simp [bin2hex]

theorem bin2hex_length (bs : List Nat) : (bin2hex bs).length = 2 * bs.length := by
  induction bs with
  | nil => simp [bin2hex]
  | cons b rest ih => simp [bin2hex_cons, ih]; omega

theorem decodePairs_bin2hex (bs : List Nat) (h : ∀ b ∈ bs, b < 256) :
    decodePairs (bin2hex bs) = some bs := by
  induction bs with
  | nil => simp [bin2hex, decodePairs]
  | cons b rest ih =>
    have hb : b < 256 := h b (by simp)
    have hdiv : b / 16 < 16 := by omega
    have hmod : b % 16 < 16 := by omega
    have hrest : decodePairs (bin2hex rest) = some rest :=
      ih (fun x hx => h x (by simp [hx]))
    rw [bin2hex_cons]
    simp only [decodePairs, hexVal_hexDigitLower _ hdiv, hexVal_hexDigitLower _ hmod, hrest]
    have : b / 16 * 16 + b % 16 = b := by omega
    rw [this]

theorem decodePairs_none_of_bad :
    ∀ (cs : List Char), (∃ c ∈ cs, hexVal c = none) → decodePairs cs = none
  | [], h => by simp at h
  | [c], _ => by simp [decodePairs]
  | hi :: lo :: rest, h => by
    rcases h with ⟨c, hc, hbad⟩
    simp only [List.mem_cons] at hc
    rcases hc with rfl | rfl | hc
    · simp [decodePairs, hbad]
    · simp only [decodePairs, hbad]
      cases hexVal hi <;> simp
    · have := decodePairs_none_of_bad rest ⟨c, hc, hbad⟩
      simp only [decodePairs, this]
      cases hexVal hi <;> cases hexVal lo <;> simp

theorem decodePairs_isSome_of_hex :
    ∀ (cs : List Char), cs.length % 2 = 0 → (∀ c ∈ cs, (hexVal c).isSome) →
      (decodePairs cs).isSome
  | [], _, _ => by simp [decodePairs]
  | [c], h, _ => by simp at h
  | hi :: lo :: rest, h, hall => by
    have hrest : (decodePairs rest).isSome :=
      decodePairs_isSome_of_hex rest (by simp only [List.length_cons] at h; omega)
        (fun c hc => hall c (by simp [hc]))
    have hhi : (hexVal hi).isSome := hall hi (by simp)
    have hlo : (hexVal lo).isSome := hall lo (by simp)
    rcases Option.isSome_iff_exists.mp hhi with ⟨vh, eh⟩
    rcases Option.isSome_iff_exists.mp hlo with ⟨vl, el⟩
    rcases Option.isSome_iff_exists.mp hrest with ⟨vr, er⟩
    simp [decodePairs, eh, el, er]

theorem hexVal_isSome_of_pattern (c : Char)
    (h : (('0' ≤ c && c ≤ '9') || ('A' ≤ c && c ≤ 'F') || ('a' ≤ c && c ≤ 'f')) = true) :
    (hexVal c).isSome := by
  simp only [Bool.or_eq_true, Bool.and_eq_true, decide_eq_true_eq] at h
  unfold hexVal
  rcases h with (⟨h1, h2⟩ | ⟨h1, h2⟩) | ⟨h1, h2⟩ <;> split_ifs <;> simp_all

theorem hex2bin_isSome_of_route (path : String) (h : route_pattern_matches path = true) :
    ∃ bs, hex2bin path.data 20 = some bs := by
  simp only [route_pattern_matches, Bool.and_eq_true, List.all_eq_true, decide_eq_true_eq]
    at h
  obtain ⟨hlen, hall⟩ := h
  have hsome : (decodePairs path.data).isSome :=
    decodePairs_isSome_of_hex path.data (by rw [hlen]) (fun c hc =>
      hexVal_isSome_of_pattern c (hall c hc))
  rcases Option.isSome_iff_exists.mp hsome with ⟨bs, hbs⟩
  refine ⟨bs ++ List.replicate (20 - bs.length) 0, ?_⟩
  rw [hex2bin, if_neg (by rw [hlen]; omega), if_neg (by rw [hlen]; omega), hbs]
  rfl

theorem hex2bin_eq_none (cs : List Char)
    (h : cs.length % 2 = 1 ∨ 40 < cs.length ∨ ∃ c ∈ cs, hexVal c = none) :
    hex2bin cs 20 = none := by
  unfold hex2bin
  rcases h with hodd | hlong | hbad
  · rw [if_pos (by omega)]
  · by_cases hpar : cs.length % 2 = 0
    · rw [if_neg (by omega), if_pos (by omega)]
    · rw [if_pos (by omega)]
  · split_ifs with h1 h2
    · rfl
    · rfl
    · rw [decodePairs_none_of_bad cs hbad]
      rfl

/-! ## Sample values used by the witnesses -/

def sampleEntry : TorrentEntry :=
  { is_flagged := false, seeders := 7, completed := 3, leechers := 2 }

def sampleHash (b : Nat) : List Nat := List.replicate 20 b

def sampleTracker : Tracker :=
  { db := [(sampleHash 0, sampleEntry), (sampleHash 1, sampleEntry), (sampleHash 2, sampleEntry)],
    addOk := fun _ => true,
    removeOk := fun _ _ => false }

def sampleState : UdptState := UdptState.new sampleTracker

def zeros40 : String := String.mk (List.replicate 40 '0')

/-- The limit normalization never exceeds 4096. -/
theorem effectiveLimit_le_4096 (p : Option String) : effectiveLimit p ≤ 4096 := by
  simp only [effectiveLimit]
  split_ifs <;> omega

/-! ## Claims -/

/-- Claim C1: in the list handler the effective limit derived from the
optional `limit` query parameter is 4096 for every parsed value above 4096;
1000 when the parameter is absent, unparsable, or parses to 0; and the
parsed value itself for every value in (0, 4096]. -/
theorem C1_effective_limit (p : Option String) :
    (∀ v n, p = some v → u32_from_str v = some n → 4096 < n →
      effectiveLimit p = 4096) ∧
    ((p = none ∨ (∃ v, p = some v ∧ u32_from_str v = none) ∨
        (∃ v, p = some v ∧ u32_from_str v = some 0)) →
      effectiveLimit p = 1000) ∧
    (∀ v n, p = some v → u32_from_str v = some n → 0 < n → n ≤ 4096 →
      effectiveLimit p = n) := by
  refine ⟨?_, ?_, ?_⟩
  · rintro v n rfl hv hn
    unfold effectiveLimit parseParamU32
    simp only [hv, Option.getD_some]
    rw [if_pos hn]
  · rintro (rfl | ⟨v, rfl, hv⟩ | ⟨v, rfl, hv⟩)
    · simp [effectiveLimit, parseParamU32]
    · simp [effectiveLimit, parseParamU32, hv]
    · simp [effectiveLimit, parseParamU32, hv]
  · rintro v n rfl hv h0 h4
    unfold effectiveLimit parseParamU32
    simp only [hv, Option.getD_some]
    rw [if_neg (by omega), if_neg (by omega)]

/-- Witness for C1 at concrete limits 99999, absent, `abc`, 0 and 42. -/
theorem C1_effective_limit_witness :
    effectiveLimit (some "99999") = 4096 ∧
    effectiveLimit none = 1000 ∧
    effectiveLimit (some "abc") = 1000 ∧
    effectiveLimit (some "0") = 1000 ∧
    effectiveLimit (some "42") = 42 :=
  ⟨(C1_effective_limit (some "99999")).1 "99999" 99999 rfl (by decide) (by decide),
   (C1_effective_limit none).2.1 (Or.inl rfl),
   (C1_effective_limit (some "abc")).2.1 (Or.inr (Or.inl ⟨"abc", rfl, by decide⟩)),
   (C1_effective_limit (some "0")).2.1 (Or.inr (Or.inr ⟨"0", rfl, by decide⟩)),
   (C1_effective_limit (some "42")).2.2 "42" 42 rfl (by decide) (by decide) (by decide)⟩

/-- Claim C2: an authenticated list request over any engine database returns
the iteration in stored order with `offset` entries dropped and at most the
effective limit taken, `length` equal to the number of items returned,
`total` the engine count, and the parsed offset echoed back (absent or
unparsable offsets parse to 0); an offset at or beyond the count yields an
empty page. -/
theorem C2_list_page (s : UdptState) (q : Query) (u : String)
    (hauth : get_user s.access_tokens q.token = some u)
    (hdb : s.tracker.db.length < 2 ^ 32) :
    view_torrent_list s q =
      { status := 200,
        body := Body.json (APIResponse.TorrentList
          { offset := parseParamU32 q.offset,
            length := (((s.tracker.db.drop (parseParamU32 q.offset)).take
                (effectiveLimit q.limit)).map Prod.fst).length,
            total := s.tracker.db.length,
            torrents := ((s.tracker.db.drop (parseParamU32 q.offset)).take
                (effectiveLimit q.limit)).map Prod.fst }) } ∧
    (q.offset = none → parseParamU32 q.offset = 0) ∧
    (∀ v, q.offset = some v → u32_from_str v = none → parseParamU32 q.offset = 0) ∧
    (s.tracker.db.length ≤ parseParamU32 q.offset →
      ((s.tracker.db.drop (parseParamU32 q.offset)).take
          (effectiveLimit q.limit)).map Prod.fst = []) := by
  refine ⟨?_, ?_, ?_, ?_⟩
  · unfold view_torrent_list
    rw [hauth]
    have hlenmod :
        (((s.tracker.db.drop (parseParamU32 q.offset)).take
            (effectiveLimit q.limit)).map Prod.fst).length % 2 ^ 32 =
        (((s.tracker.db.drop (parseParamU32 q.offset)).take
            (effectiveLimit q.limit)).map Prod.fst).length := by
      apply Nat.mod_eq_of_lt
      have h1 : (((s.tracker.db.drop (parseParamU32 q.offset)).take
          (effectiveLimit q.limit)).map Prod.fst).length ≤ effectiveLimit q.limit := by
        simp [List.length_map, List.length_take]
      have h2 := effectiveLimit_le_4096 q.limit
      omega
    simp only [Option.isSome_some, Option.isNone_some, Bool.false_eq_true, if_false,
      Nat.mod_eq_of_lt hdb, hlenmod]
  · intro h
    simp [parseParamU32, h]
  · intro v hv hparse
    simp [parseParamU32, hv, hparse]
  · intro hoff
    rw [List.drop_eq_nil_of_le hoff]
    simp

/-- Witness for C2: three tracked entries, `offset=1`, `limit=2`, valid
token. -/
theorem C2_list_page_witness :
    get_user sampleState.access_tokens (some "h311o") = some "naim" ∧
    sampleState.tracker.db.length < 2 ^ 32 ∧
    view_torrent_list sampleState
        { token := some "h311o", offset := some "1", limit := some "2" } =
      { status := 200,
        body := Body.json (APIResponse.TorrentList
          { offset := 1, length := 2, total := 3,
            torrents := [sampleHash 1, sampleHash 2] }) } := by
  refine ⟨by decide, by decide, ?_⟩
  have h := (C2_list_page sampleState
    { token := some "h311o", offset := some "1", limit := some "2" } "naim"
    (by decide) (by decide)).1
  rw [h]
  decide

/-- Claim C3: a request whose `token` parameter is absent or not in the
access-token table gets the `access_denied` error envelope, returned with
status 200 by the list handler and with the unauthorized status 401 by the
single-entity GET and POST handlers. -/
theorem C3_access_denied (s : UdptState) (q : Query) (path : String)
    (hbad : q.token = none ∨
      ∃ t, q.token = some t ∧ lookupToken s.access_tokens t = none) :
    view_torrent_list s q =
      { status := 200, body := Body.json (APIResponse.Error "access_denied") } ∧
    view_torrent_stats s q path =
      { status := 401, body := Body.json (APIResponse.Error "access_denied") } ∧
    torrent_action s q path =
      ({ status := 401, body := Body.json (APIResponse.Error "access_denied") }, []) := by
  have hnone : get_user s.access_tokens q.token = none := by
    rcases hbad with h | ⟨t, ht, hl⟩
    · simp [get_user, h]
    · simp [get_user, ht, hl]
  refine ⟨?_, ?_, ?_⟩ <;>
    simp [view_torrent_list, view_torrent_stats, torrent_action, hnone]

/-- Witness for C3 at a token that is not in the table. -/
theorem C3_access_denied_witness :
    ((some "wrongtoken" = (none : Option String)) ∨
      ∃ t, some "wrongtoken" = some t ∧ lookupToken sampleState.access_tokens t = none) ∧
    view_torrent_list sampleState { token := some "wrongtoken" } =
      { status := 200, body := Body.json (APIResponse.Error "access_denied") } ∧
    view_torrent_stats sampleState { token := some "wrongtoken" } zeros40 =
      { status := 401, body := Body.json (APIResponse.Error "access_denied") } ∧
    torrent_action sampleState { token := some "wrongtoken" } zeros40 =
      ({ status := 401, body := Body.json (APIResponse.Error "access_denied") }, []) :=
  ⟨Or.inr ⟨"wrongtoken", rfl, by decide⟩,
   C3_access_denied sampleState { token := some "wrongtoken" } zeros40
     (Or.inr ⟨"wrongtoken", rfl, by decide⟩)⟩

/-- Counterexample to C4: the authenticated GET with the wrong-length (two
character) hex identifier `11` does not return `invalid_info_hash` with
bad-request status: `hex2bin` succeeds on any even-length hex string that
fits the 20-byte buffer, the hash is zero-padded, and the handler answers
`not_found` with status 404. -/
theorem C4_counterexample :
    view_torrent_stats sampleState { token := some "h311o" } "11" =
      { status := 404, body := Body.json (APIResponse.Error "not_found") } ∧
    view_torrent_stats sampleState { token := some "h311o" } "11" ≠
      { status := 400, body := Body.json (APIResponse.Error "invalid_info_hash") } := by
  constructor
  · decide
  · decide

/-- Claim C4 as amended: an authenticated request whose path actually fails
hex decoding — odd length, length above 40, or a non-hex character — gets
`invalid_info_hash` with bad-request status from both single-entity
handlers (for POST once the `action` parameter is present), never a server
error and never a not-found response; even-length hex paths of at most 40
characters decode successfully instead (zero-padded), and under the route
pattern only exactly-40-character hex paths reach these handlers at all. -/
theorem C4_invalid_hash_amended (s : UdptState) (q : Query) (path : String) (u a : String)
    (hauth : get_user s.access_tokens q.token = some u)
    (haction : q.action = some a)
    (hbad : path.data.length % 2 = 1 ∨ 40 < path.data.length ∨
      ∃ c ∈ path.data, hexVal c = none) :
    view_torrent_stats s q path =
      { status := 400, body := Body.json (APIResponse.Error "invalid_info_hash") } ∧
    torrent_action s q path =
      ({ status := 400, body := Body.json (APIResponse.Error "invalid_info_hash") }, []) := by
  have hdec : hex2bin path.data 20 = none := hex2bin_eq_none path.data hbad
  constructor
  · simp [view_torrent_stats, hauth, hdec]
  · simp [torrent_action, hauth, haction, hdec]

/-- Witness for the amended C4 at the non-hex two-character path `zz`. -/
theorem C4_invalid_hash_amended_witness :
    get_user sampleState.access_tokens (some "h311o") = some "naim" ∧
    ("zz".data.length % 2 = 1 ∨ 40 < "zz".data.length ∨
      ∃ c ∈ "zz".data, hexVal c = none) ∧
    view_torrent_stats sampleState { token := some "h311o", action := some "flag" } "zz" =
      { status := 400, body := Body.json (APIResponse.Error "invalid_info_hash") } ∧
    torrent_action sampleState { token := some "h311o", action := some "flag" } "zz" =
      ({ status := 400, body := Body.json (APIResponse.Error "invalid_info_hash") }, []) :=
  ⟨by decide, Or.inr (Or.inr ⟨'z', by decide, by decide⟩),
   C4_invalid_hash_amended sampleState
     { token := some "h311o", action := some "flag" } "zz" "naim" "flag"
     (by decide) rfl (Or.inr (Or.inr ⟨'z', by decide, by decide⟩))⟩

/-- Counterexample to C5: the serialized error envelope is serde's default
externally tagged form `{"error": "access_denied"}` — a one-entry object
keyed by the variant name — and carries no `type` discriminator field. -/
theorem C5_counterexample :
    serializeAPIResponse (APIResponse.Error "access_denied") =
      Json.obj [("error", Json.str "access_denied")] ∧
    hasKey (serializeAPIResponse (APIResponse.Error "access_denied")) "type" = false :=
  ⟨rfl, by decide⟩

/-- Claim C5 as amended: every JSON response body serializes exactly one
`APIResponse` variant as an externally tagged envelope — a single-entry
object whose key is the snake-case variant name (`error`, `torrent_list`,
`torrent_info`) and whose value is the variant's payload; there is no
`type` discriminator field. -/
theorem C5_envelope_amended :
    (∀ msg, serializeAPIResponse (APIResponse.Error msg) =
      Json.obj [("error", Json.str msg)]) ∧
    (∀ l, serializeAPIResponse (APIResponse.TorrentList l) =
      Json.obj [("torrent_list", serializeTorrentList l)]) ∧
    (∀ i, serializeAPIResponse (APIResponse.TorrentInfo i) =
      Json.obj [("torrent_info", serializeTorrentInfo i)]) ∧
    (∀ r, hasKey (serializeAPIResponse r) "type" = false) := by
  refine ⟨fun msg => rfl, fun l => rfl, fun i => rfl, fun r => ?_⟩
  cases r <;> simp [serializeAPIResponse, hasKey]

/-- Claim C6: once authenticated and decoded, action `flag` produces exactly
the engine call setting the flag to true and an OK response with empty
body, and `unflag` the call setting it to false, for every engine state —
the engine outcome is never inspected. -/
theorem C6_flag_unflag (s : UdptState) (q : Query) (path : String) (u : String)
    (info_hash : List Nat)
    (hauth : get_user s.access_tokens q.token = some u)
    (hdecode : hex2bin path.data 20 = some info_hash) :
    (q.action = some "flag" →
      torrent_action s q path =
        ({ status := 200, body := Body.empty },
         [EngineCall.set_torrent_flag info_hash true])) ∧
    (q.action = some "unflag" →
      torrent_action s q path =
        ({ status := 200, body := Body.empty },
         [EngineCall.set_torrent_flag info_hash false])) := by
  constructor <;> intro ha <;>
    simp [torrent_action, hauth, ha, hdecode]

/-- Witness for C6 at the all-zero 40-character path over the sample engine
(which does not contain a decision for this hash beyond its database). -/
theorem C6_flag_unflag_witness :
    get_user sampleState.access_tokens (some "h311o") = some "naim" ∧
    hex2bin zeros40.data 20 = some (sampleHash 0) ∧
    torrent_action sampleState { token := some "h311o", action := some "flag" } zeros40 =
      ({ status := 200, body := Body.empty },
       [EngineCall.set_torrent_flag (sampleHash 0) true]) :=
  ⟨by decide, by decide,
   (C6_flag_unflag sampleState { token := some "h311o", action := some "flag" }
     zeros40 "naim" (sampleHash 0) (by decide) (by decide)).1 rfl⟩

/-- Claim C7: once authenticated and decoded, action `add` performs exactly
the engine `add_torrent` call and answers OK with empty body when the
engine reports success and status 500 with empty body otherwise; `remove`
performs exactly `remove_torrent` with the cascade flag set, with the same
status policy; no failure detail is surfaced in the body. -/
theorem C7_add_remove (s : UdptState) (q : Query) (path : String) (u : String)
    (info_hash : List Nat)
    (hauth : get_user s.access_tokens q.token = some u)
    (hdecode : hex2bin path.data 20 = some info_hash) :
    (q.action = some "add" →
      torrent_action s q path =
        ({ status := if s.tracker.addOk info_hash then 200 else 500,
           body := Body.empty },
         [EngineCall.add_torrent info_hash])) ∧
    (q.action = some "remove" →
      torrent_action s q path =
        ({ status := if s.tracker.removeOk info_hash true then 200 else 500,
           body := Body.empty },
         [EngineCall.remove_torrent info_hash true])) := by
  constructor <;> intro ha <;>
    simp [torrent_action, hauth, ha, hdecode]

/-- Witness for C7: the sample engine accepts `add` (status 200) and rejects
`remove` (status 500), both with empty bodies. -/
theorem C7_add_remove_witness :
    get_user sampleState.access_tokens (some "h311o") = some "naim" ∧
    hex2bin zeros40.data 20 = some (sampleHash 0) ∧
    torrent_action sampleState { token := some "h311o", action := some "add" } zeros40 =
      ({ status := if sampleState.tracker.addOk (sampleHash 0) then 200 else 500,
         body := Body.empty },
       [EngineCall.add_torrent (sampleHash 0)]) ∧
    torrent_action sampleState { token := some "h311o", action := some "remove" } zeros40 =
      ({ status := if sampleState.tracker.removeOk (sampleHash 0) true then 200 else 500,
         body := Body.empty },
       [EngineCall.remove_torrent (sampleHash 0) true]) :=
  ⟨by decide, by decide,
   (C7_add_remove sampleState { token := some "h311o", action := some "add" }
     zeros40 "naim" (sampleHash 0) (by decide) (by decide)).1 rfl,
   (C7_add_remove sampleState { token := some "h311o", action := some "remove" }
     zeros40 "naim" (sampleHash 0) (by decide) (by decide)).2 rfl⟩

/-- Claim C8: on the authenticated POST route (path matching the route
pattern), a missing `action` parameter yields the bad-request error
`action_required` and an unrecognized action value yields the bad-request
error `invalid_action`; in both cases the engine-call trace is empty. -/
theorem C8_action_validation (s : UdptState) (q : Query) (path : String) (u : String)
    (hauth : get_user s.access_tokens q.token = some u)
    (hroute : route_pattern_matches path = true) :
    (q.action = none →
      torrent_action s q path =
        ({ status := 400, body := Body.json (APIResponse.Error "action_required") }, [])) ∧
    (∀ a, q.action = some a →
      a ≠ "flag" → a ≠ "unflag" → a ≠ "add" → a ≠ "remove" →
      torrent_action s q path =
        ({ status := 400, body := Body.json (APIResponse.Error "invalid_action") }, [])) := by
  obtain ⟨bs, hbs⟩ := hex2bin_isSome_of_route path hroute
  constructor
  · intro ha
    simp [torrent_action, hauth, ha]
  · intro a ha h1 h2 h3 h4
    simp [torrent_action, hauth, ha, hbs, h1, h2, h3, h4]

/-- Witness for C8 at a missing action and at the unknown action `explode`. -/
theorem C8_action_validation_witness :
    get_user sampleState.access_tokens (some "h311o") = some "naim" ∧
    route_pattern_matches zeros40 = true ∧
    torrent_action sampleState { token := some "h311o" } zeros40 =
      ({ status := 400, body := Body.json (APIResponse.Error "action_required") }, []) ∧
    torrent_action sampleState { token := some "h311o", action := some "explode" } zeros40 =
      ({ status := 400, body := Body.json (APIResponse.Error "invalid_action") }, []) :=
  ⟨by decide, by decide,
   (C8_action_validation sampleState { token := some "h311o" } zeros40 "naim"
     (by decide) (by decide)).1 rfl,
   (C8_action_validation sampleState { token := some "h311o", action := some "explode" }
     zeros40 "naim" (by decide) (by decide)).2 "explode" rfl
     (by decide) (by decide) (by decide) (by decide)⟩

/-- Claim C9: encoding any 20-byte identifier with `bin2hex` — exactly as
`infohash_as_str` renders `TorrentList` items into the 40-byte buffer —
yields a 40-character string, and decoding that string with `hex2bin` into
the 20-byte buffer returns exactly the original bytes. -/
theorem C9_hex_roundtrip (bytes : List Nat) (hlen : bytes.length = 20)
    (hbound : ∀ b ∈ bytes, b < 256) :
    (String.mk (bin2hex bytes)).data.length = 40 ∧
    hex2bin (String.mk (bin2hex bytes)).data 20 = some bytes := by
  have hl : (bin2hex bytes).length = 40 := by rw [bin2hex_length, hlen]
  constructor
  · exact hl
  · show hex2bin (bin2hex bytes) 20 = some bytes
    rw [hex2bin, if_neg (by rw [hl]; omega), if_neg (by rw [hl]; omega),
      decodePairs_bin2hex bytes hbound]
    simp [hlen]

/-- Witness for C9 at the identifier whose bytes are 0, 1, ..., 19. -/
theorem C9_hex_roundtrip_witness :
    (List.range 20).length = 20 ∧ (∀ b ∈ List.range 20, b < 256) ∧
    (String.mk (bin2hex (List.range 20))).data.length = 40 ∧
    hex2bin (String.mk (bin2hex (List.range 20))).data 20 = some (List.range 20) :=
  ⟨by decide, by decide,
   C9_hex_roundtrip (List.range 20) (by decide) (by decide)⟩

/-- Claim C10: every path matching the single-entity route pattern (exactly
40 hex characters) decodes successfully into the 20-byte buffer, so for
dispatched requests the `invalid_info_hash` branches of
`view_torrent_stats` and `torrent_action` are unreachable. -/
theorem C10_route_precondition (s : UdptState) (q : Query) (path : String)
    (hroute : route_pattern_matches path = true) :
    (hex2bin path.data 20).isSome = true ∧
    view_torrent_stats s q path ≠
      { status := 400, body := Body.json (APIResponse.Error "invalid_info_hash") } ∧
    (torrent_action s q path).1 ≠
      { status := 400, body := Body.json (APIResponse.Error "invalid_info_hash") } := by
  obtain ⟨bs, hbs⟩ := hex2bin_isSome_of_route path hroute
  refine ⟨by rw [hbs]; rfl, ?_, ?_⟩
  · unfold view_torrent_stats
    split_ifs with hu
    · simp
    · rw [hbs]
      cases hfind : (s.tracker.db.find? (fun p => p.1 = bs)).map (fun p => p.2) <;>
        simp [hfind]
  · unfold torrent_action
    split_ifs with hu
    · simp
    · cases ha : q.action with
      | none => simp
      | some a =>
        rw [hbs]
        dsimp only
        split_ifs <;> simp

/-- Witness for C10 at the all-zero 40-character path. -/
theorem C10_route_precondition_witness :
    route_pattern_matches zeros40 = true ∧
    (hex2bin zeros40.data 20).isSome = true ∧
    view_torrent_stats sampleState { token := some "h311o" } zeros40 ≠
      { status := 400, body := Body.json (APIResponse.Error "invalid_info_hash") } ∧
    (torrent_action sampleState { token := some "h311o" } zeros40).1 ≠
      { status := 400, body := Body.json (APIResponse.Error "invalid_info_hash") } :=
  ⟨by decide,
   C10_route_precondition sampleState { token := some "h311o" } zeros40 (by decide)⟩

end Udpt
